import Mathlib

/-!
Verification of the campaign-analytics aggregation and scheduled-ingestion
subsystem of the ContentGeneration backend.

The development is a shallow embedding of the Python source:

* `app/services/analytics_service.py` — `_calc_rate`, `_get_status_label`,
  the normalization of provider campaign payloads in `get_campaigns` and
  `get_campaign_by_id`;
* `app/api/campaign_filter.py` — `is_editorial_digest_campaign`,
  `filter_campaigns`;
* `app/api/analytics_routes.py` — `list_all_campaigns` (pagination loop and
  final sort/dedup assembly), `get_campaigns` (direct-by-ID branch),
  `get_campaign_report`, `get_campaign_links`;
* `app/services/scheduler_service.py` — `update_all_pillars_news`.

Modelling conventions:
* Python scalar values that can flow into the coercion helpers are embedded
  as `PyVal` (`none` = Python `None`, machine integers as `Int`,
  strings as `String`).  A JSON/dict payload is a partial map
  `String → Option PyVal` (`Option.none` = key absent, `some PyVal.none` =
  key present with a null value).
* Python real arithmetic is modelled over `ℚ`; `round(x, 2)` is modelled as
  exact round-half-to-even at two decimals.
* HTTP handlers are modelled as pure functions taking the outcome of each
  upstream call as an argument; an `HTTPException(status_code=s)` is the
  `Except.error s` case.  Log statements carry no observable state and are
  dropped.
-/

set_option maxRecDepth 4000

namespace ContentGen

/-- Embedded Python scalar value: `None`, an `int`, or a `str`. -/
inductive PyVal where
  | none : PyVal
  | int : Int → PyVal
  | str : String → PyVal
deriving DecidableEq

/-- Python truthiness for the embedded scalars: `None`, `0` and `""` are
falsy, everything else truthy. -/
def pyTruthy : PyVal → Bool
  | .none => false
  | .int z => z != 0
  | .str s => s != ""

/-- Python `x or 0` (used throughout the normalization as `... or 0`). -/
def pyOr0 (v : PyVal) : PyVal := if pyTruthy v then v else .int 0

/-- Python whitespace test used by `str.strip()` (ASCII whitespace:
space, tab, newline, carriage return, vertical tab, form feed). -/
def pyIsSpace (c : Char) : Bool :=
  c = ' ' || c = '\t' || c = '\n' || c = '\r' || c = '\x0b' || c = '\x0c'

/-- Python `str.strip()`: drop whitespace from both ends. -/
def pyStrip (s : String) : String :=
  ⟨((s.toList.dropWhile pyIsSpace).reverse.dropWhile pyIsSpace).reverse⟩

/-- Python `str.lower()` (the strings in play are ASCII). -/
def pyLower (s : String) : String := ⟨s.toList.map Char.toLower⟩

/-- `chPre a b`: the character list `a` starts the character list `b`. -/
def chPre : List Char → List Char → Bool
  | [], _ => true
  | _ :: _, [] => false
  | a :: as, b :: bs => a = b && chPre as bs

/-- `chInfix a b`: `a` occurs as a contiguous run inside `b`. -/
def chInfix (a : List Char) : List Char → Bool
  | [] => a.isEmpty
  | b :: bs => chPre a (b :: bs) || chInfix a bs

/-- Python `a in b` on strings: substring test. -/
def pySubstr (a b : String) : Bool := chInfix a.toList b.toList

/-- Lexicographic comparison of character lists by code point. -/
def lexLe : List Char → List Char → Bool
  | [], _ => true
  | _ :: _, [] => false
  | a :: as, b :: bs =>
      if a < b then true else if b < a then false else lexLe as bs

/-- Python `a <= b` on strings: lexicographic by code point. -/
def pyStrLe (a b : String) : Bool := lexLe a.toList b.toList

/-- Value of a nonempty all-digit character list, base 10. -/
def parseDigits (l : List Char) : Option Nat :=
  if l ≠ [] ∧ l.all Char.isDigit then
    some (l.foldl (fun a c => 10 * a + (c.toNat - '0'.toNat)) 0)
  else Option.none

/-- Python `int(s)` on a string: optional surrounding whitespace, optional
sign, nonempty digit run; anything else raises (`Option.none`).
(Underscore digit separators are not modelled.) -/
def parseIntPy (s : String) : Option Int :=
  match (pyStrip s).toList with
  | '+' :: rest => (parseDigits rest).map fun n => (n : Int)
  | '-' :: rest => (parseDigits rest).map fun n => -(n : Int)
  | rest => (parseDigits rest).map fun n => (n : Int)

/-- Python `int(v)` on an embedded scalar; `Option.none` models a raised
`TypeError`/`ValueError`. -/
def pyIntCoerce : PyVal → Option Int
  | .int z => some z
  | .str s => parseIntPy s
  | .none => Option.none

/-- Python `str(v)` on an embedded scalar. -/
def pyStrOf : PyVal → String
  | .none => "None"
  | .int z => toString z
  | .str s => s

/-- Round-half-to-even of a rational to an integer (Python `round(x)`). -/
def roundHalfEven (q : ℚ) : Int :=
  if q - (⌊q⌋ : ℚ) < 1/2 then ⌊q⌋
  else if 1/2 < q - (⌊q⌋ : ℚ) then ⌊q⌋ + 1
  else if ⌊q⌋ % 2 = 0 then ⌊q⌋ else ⌊q⌋ + 1

/-- Python `round(x, 2)` modelled exactly over `ℚ`. -/
def pyRound2 (q : ℚ) : ℚ := (roundHalfEven (q * 100) : ℚ) / 100

/-- `AnalyticsService._calc_rate` (analytics_service.py:290-299):
```
try:
    num = int(numerator or 0)
    denom = int(denominator or 0)
    if denom == 0: return 0.0
    return round((num / denom) * 100, 2)
except:
    return 0.0
```
-/
def calcRate (numerator denominator : PyVal) : ℚ :=
  match pyIntCoerce (pyOr0 numerator), pyIntCoerce (pyOr0 denominator) with
  | some num, some denom =>
      if denom = 0 then 0 else pyRound2 ((num : ℚ) / (denom : ℚ) * 100)
  | _, _ => 0

/-- `AnalyticsService._get_status_label` (analytics_service.py:278-288). -/
def getStatusLabel (status : PyVal) : String :=
  let s := pyStrOf status
  if s = "0" then "Draft"
  else if s = "1" then "Scheduled"
  else if s = "2" then "Sending"
  else if s = "3" then "Paused"
  else if s = "4" then "Stopped"
  else if s = "5" then "Completed"
  else "Unknown"

/-! ## Campaign filter (`app/api/campaign_filter.py`)

`settings.editorial_digest_campaign_ids` (the parsed allow-list) and
`settings.EDITORIAL_DIGEST_CAMPAIGN_NAME_PATTERN` are bundled as an
explicit configuration record. -/

/-- The filter configuration read from `settings`. -/
structure FilterCfg where
  allowedIds : List String
  namePattern : String
deriving DecidableEq

/-- `is_editorial_digest_campaign` (campaign_filter.py:8-41).  Campaign IDs
reach this predicate as strings (the source applies `str(...)`, which is the
identity there). -/
def isEditorialDigestCampaign (cfg : FilterCfg) (campaignId : String)
    (campaignName : String := "") : Bool :=
  -- if not allowed_ids and not name_pattern: return True
  if cfg.allowedIds.isEmpty && (cfg.namePattern == "") then true
  -- if allowed_ids: ... if campaign_id_normalized in allowed_ids_set: return True
  else if !cfg.allowedIds.isEmpty
      && (cfg.allowedIds.map pyStrip).contains (pyStrip campaignId) then true
  -- if name_pattern and campaign_name: ... if pattern_lower in name_lower: return True
  else if (cfg.namePattern != "") && (campaignName != "")
      && pySubstr (pyStrip (pyLower cfg.namePattern)) (pyLower campaignName) then true
  else false

/-- A campaign record as seen by the list filter: the `id` and `name`
fields of the normalized campaign dict. -/
structure CampF where
  id : String
  name : String
deriving DecidableEq

/-- Body of `filter_campaigns` (campaign_filter.py:54-98), generic over the
record type carrying the `id` and `name` fields. -/
def filterCampaignsBy {α : Type} (cfg : FilterCfg) (getId getName : α → String)
    (campaigns : List α) : List α :=
  -- if not allowed_ids and not name_pattern: return campaigns
  if cfg.allowedIds.isEmpty && (cfg.namePattern == "") then campaigns
  else
    campaigns.filter fun c =>
      -- if allowed_ids_set and campaign_id in allowed_ids_set: append; continue
      (!cfg.allowedIds.isEmpty
        && (cfg.allowedIds.map pyStrip).contains (pyStrip (getId c)))
      -- if pattern_lower and campaign_name: if pattern_lower in name.lower(): append
      || ((cfg.namePattern != "")
        && (pyStrip (pyLower cfg.namePattern) != "")
        && (getName c != "")
        && pySubstr (pyStrip (pyLower cfg.namePattern)) (pyLower (getName c)))

/-- `filter_campaigns` (campaign_filter.py:54-98) on `id`/`name` records. -/
def filterCampaigns (cfg : FilterCfg) (campaigns : List CampF) : List CampF :=
  filterCampaignsBy cfg CampF.id CampF.name campaigns

/-! ## Campaign payload normalization (`analytics_service.py`)

An upstream JSON object is a partial map from keys to scalars.
`Option.none` is an absent key, `some PyVal.none` a null value. -/

/-- An upstream dict payload. -/
def Dict := String → Option PyVal

/-- Python `d.get(k, default)`. -/
def dGet (d : Dict) (k : String) (default : PyVal) : PyVal :=
  (d k).getD default

/-- Python `d.get(k)` (default `None`). -/
def dGetN (d : Dict) (k : String) : PyVal := dGet d k .none

/-- One integer field coercion of the normalization:
`int(campaign.get(k, 0) or 0)`; `Option.none` models a raised exception. -/
def intField (d : Dict) (k : String) : Option Int :=
  pyIntCoerce (pyOr0 (dGet d k (.int 0)))

/-- One string field coercion of the normalization:
`campaign.get(k) or ""` (null/absent/falsy becomes the empty string;
string values pass through unchanged). -/
def strField (d : Dict) (k : String) : String :=
  let v := dGetN d k
  if pyTruthy v then pyStrOf v else ""

/-- The sixteen raw counters read by the normalization, in source order. -/
structure Counters where
  sendAmt : Int
  totalAmt : Int
  opens : Int
  uniqueOpens : Int
  linkClicks : Int
  uniqueLinkClicks : Int
  subscriberClicks : Int
  hardBounces : Int
  softBounces : Int
  forwards : Int
  uniqueForwards : Int
  unsubscribes : Int
  unsubReasons : Int
  replies : Int
  uniqueReplies : Int
  socialShares : Int
deriving DecidableEq

/-- The keys of the sixteen coerced counter fields, in the order the
dict literal evaluates them. -/
def counterKeys : List String :=
  ["send_amt", "total_amt", "opens", "uniqueopens", "linkclicks",
   "uniquelinkclicks", "subscriberclicks", "hardbounces", "softbounces",
   "forwards", "uniqueforwards", "unsubscribes", "unsubreasons",
   "replies", "uniquereplies", "socialshares"]

/-- Apply `f` to every key, left to right, failing as soon as one
application fails (the `Option` traversal used by `readCounters`). -/
def mapOptAll (f : String → Option Int) : List String → Option (List Int)
  | [] => some []
  | k :: ks => (f k).bind fun v => (mapOptAll f ks).map fun vs => v :: vs

/-- The integer coercions of the campaign normalization, performed left to
right in source order; the first failing `int(...)` call aborts the whole
normalization (models the uncaught `ValueError`). -/
def readCounters (d : Dict) : Option Counters :=
  match mapOptAll (intField d) counterKeys with
  | some [sendAmt, totalAmt, opens, uniqueOpens, linkClicks,
      uniqueLinkClicks, subscriberClicks, hardBounces, softBounces,
      forwards, uniqueForwards, unsubscribes, unsubReasons, replies,
      uniqueReplies, socialShares] =>
      some ⟨sendAmt, totalAmt, opens, uniqueOpens, linkClicks,
        uniqueLinkClicks, subscriberClicks, hardBounces, softBounces,
        forwards, uniqueForwards, unsubscribes, unsubReasons, replies,
        uniqueReplies, socialShares⟩
  | _ => Option.none

/-- The canonical normalized campaign shape produced by the service. -/
structure CampaignN where
  id : String
  name : String
  type : String
  status : String
  sendDate : String
  createdDate : String
  subject : String
  totalSends : Int
  totalRecipients : Int
  opens : Int
  uniqueOpens : Int
  clicks : Int
  uniqueClicks : Int
  subscriberClicks : Int
  hardBounces : Int
  softBounces : Int
  forwards : Int
  uniqueForwards : Int
  unsubscribes : Int
  unsubReasons : Int
  replies : Int
  uniqueReplies : Int
  socialShares : Int
  openRate : ℚ
  clickRate : ℚ
  clickToOpenRate : ℚ
  bounceRate : ℚ
  unsubscribeRate : ℚ
  forwardRate : ℚ
deriving DecidableEq

/-- Shared body of the per-campaign normalization in
`AnalyticsService.get_campaigns` (analytics_service.py:90-140) and
`AnalyticsService.get_campaign_by_id` (analytics_service.py:169-219);
`subject` is read only by the by-ID variant. -/
def normalizeWith (subject : String) (d : Dict) : Option CampaignN :=
  (readCounters d).map fun k =>
    { id := pyStrOf (dGet d "id" (.str ""))
      name := strField d "name"
      type := strField d "type"
      status := getStatusLabel (dGet d "status" (.str "0"))
      sendDate := strField d "sdate"
      createdDate := strField d "cdate"
      subject := subject
      totalSends := k.sendAmt
      totalRecipients := k.totalAmt
      opens := k.opens
      uniqueOpens := k.uniqueOpens
      clicks := k.linkClicks
      uniqueClicks := k.uniqueLinkClicks
      subscriberClicks := k.subscriberClicks
      hardBounces := k.hardBounces
      softBounces := k.softBounces
      forwards := k.forwards
      uniqueForwards := k.uniqueForwards
      unsubscribes := k.unsubscribes
      unsubReasons := k.unsubReasons
      replies := k.replies
      uniqueReplies := k.uniqueReplies
      socialShares := k.socialShares
      openRate := calcRate (dGetN d "uniqueopens") (dGetN d "send_amt")
      clickRate := calcRate (dGetN d "uniquelinkclicks") (dGetN d "send_amt")
      clickToOpenRate := calcRate (dGetN d "uniquelinkclicks") (dGetN d "uniqueopens")
      bounceRate := calcRate (.int (k.hardBounces + k.softBounces)) (dGetN d "send_amt")
      unsubscribeRate := calcRate (dGetN d "unsubscribes") (dGetN d "send_amt")
      forwardRate := calcRate (dGetN d "uniqueforwards") (dGetN d "send_amt") }

/-- The normalization performed for each row of `get_campaigns`
(no `subject` key is read; the field stays empty). -/
def normalizeCampaignList (d : Dict) : Option CampaignN := normalizeWith "" d

/-- The normalization performed by `get_campaign_by_id`
(additionally reads `subject`). -/
def normalizeCampaignById (d : Dict) : Option CampaignN :=
  normalizeWith (strField d "subject") d

/-- The empty payload: every key absent. -/
def emptyDict : Dict := fun _ => Option.none

/-! ## Analytics routes (`app/api/analytics_routes.py`)

The handlers are modelled as pure functions of the outcome of each
upstream service call.  A fetch outcome is `Except String CampaignN`: the
error case carries the exception's message string, which the handlers
inspect for substrings such as `"404"`. -/

/-- Error classification of `get_campaign_report`
(analytics_routes.py:416-438): 404 on "404"/"not found", 503 on
"401"/"403"/"unauthorized", else 500. -/
def classifyReportFetchError (e : String) : Nat :=
  if pySubstr "404" e || pySubstr "not found" (pyLower e) then 404
  else if pySubstr "401" e || pySubstr "403" e || pySubstr "unauthorized" (pyLower e) then 503
  else 500

/-- Error classification of `get_campaign_links`
(analytics_routes.py:584-595): 404 on "404"/"not found", else 500. -/
def classifyLinksFetchError (e : String) : Nat :=
  if pySubstr "404" e || pySubstr "not found" (pyLower e) then 404
  else 500

/-- `get_campaign_report` (analytics_routes.py:392-484).  `fetched` is the
outcome of `service.get_campaign_by_id(campaign_id)`; the handler result is
either the campaign report or an HTTP status code. -/
def getCampaignReportRoute (cfg : FilterCfg) (campaignId : String)
    (fetched : Except String CampaignN) : Except Nat CampaignN :=
  match fetched with
  | .error e => .error (classifyReportFetchError e)
  | .ok campaign =>
      if !isEditorialDigestCampaign cfg campaignId campaign.name then
        .error 404
      else
        .ok campaign

/-- A link record returned by `AnalyticsService.get_campaign_links`. -/
structure LinkN where
  id : PyVal
  url : String
  name : String
  clicks : Int
  uniqueClicks : Int
deriving DecidableEq

/-- `get_campaign_links` (analytics_routes.py:561-626).  `fetched` is the
outcome of `service.get_campaign_by_id`; `links` the outcome of
`service.get_campaign_links`, requested only when the filter accepts. -/
def getCampaignLinksRoute (cfg : FilterCfg) (campaignId : String)
    (fetched : Except String CampaignN) (links : List LinkN) :
    Except Nat (List LinkN) :=
  match fetched with
  | .error e => .error (classifyLinksFetchError e)
  | .ok campaign =>
      if !isEditorialDigestCampaign cfg campaignId campaign.name then
        .error 404
      else
        .ok links

/-- The validation cleaning applied per campaign by the `/campaigns`
handler (analytics_routes.py:329-360): every field re-read with an
`or`-default.  On the typed normalized record the `or 0` / `or ""`
coercions leave falsy values at the default.  The Pydantic response model
has no `subject` field; the cleaned record's `subject` is empty. -/
def cleanCampaign (c : CampaignN) : CampaignN :=
  { id := if c.id = "" then "" else c.id
    name := if c.name = "" then "" else c.name
    type := if c.type = "" then "" else c.type
    status := if c.status = "" then "" else c.status
    sendDate := if c.sendDate = "" then "" else c.sendDate
    createdDate := if c.createdDate = "" then "" else c.createdDate
    subject := ""
    totalSends := if c.totalSends = 0 then 0 else c.totalSends
    totalRecipients := if c.totalRecipients = 0 then 0 else c.totalRecipients
    opens := if c.opens = 0 then 0 else c.opens
    uniqueOpens := if c.uniqueOpens = 0 then 0 else c.uniqueOpens
    clicks := if c.clicks = 0 then 0 else c.clicks
    uniqueClicks := if c.uniqueClicks = 0 then 0 else c.uniqueClicks
    subscriberClicks := if c.subscriberClicks = 0 then 0 else c.subscriberClicks
    hardBounces := if c.hardBounces = 0 then 0 else c.hardBounces
    softBounces := if c.softBounces = 0 then 0 else c.softBounces
    forwards := if c.forwards = 0 then 0 else c.forwards
    uniqueForwards := if c.uniqueForwards = 0 then 0 else c.uniqueForwards
    unsubscribes := if c.unsubscribes = 0 then 0 else c.unsubscribes
    unsubReasons := if c.unsubReasons = 0 then 0 else c.unsubReasons
    replies := if c.replies = 0 then 0 else c.replies
    uniqueReplies := if c.uniqueReplies = 0 then 0 else c.uniqueReplies
    socialShares := if c.socialShares = 0 then 0 else c.socialShares
    openRate := if c.openRate = 0 then 0 else c.openRate
    clickRate := if c.clickRate = 0 then 0 else c.clickRate
    clickToOpenRate := if c.clickToOpenRate = 0 then 0 else c.clickToOpenRate
    bounceRate := if c.bounceRate = 0 then 0 else c.bounceRate
    unsubscribeRate := if c.unsubscribeRate = 0 then 0 else c.unsubscribeRate
    forwardRate := if c.forwardRate = 0 then 0 else c.forwardRate }

/-- `get_campaigns` (analytics_routes.py:289-389).  `fetchById id` is the
outcome of `service.get_campaign_by_id(id)` (`Option.none` = raised, the
handler logs and skips); `listPage limit offset` is the outcome of
`service.get_campaigns(limit, offset)`. -/
def getCampaignsRoute (cfg : FilterCfg) (fetchById : String → Option CampaignN)
    (listPage : Nat → Nat → List CampaignN) (limit offset : Nat) :
    List CampaignN :=
  let campaigns :=
    if !cfg.allowedIds.isEmpty then
      -- fetch configured campaigns directly by ID, skipping failures
      cfg.allowedIds.filterMap fetchById
    else
      -- no IDs configured: fetch one page and filter by the shared predicate
      filterCampaignsBy cfg CampaignN.id CampaignN.name (listPage limit offset)
  campaigns.map cleanCampaign

/-- The `fetch_all_pages` loop of `list_all_campaigns`
(analytics_routes.py:146-160).  `getPage off` is the outcome of
`service.get_campaigns(page_size, off)`.  The Python loop is unbounded;
`fuel` bounds the recursion, and the second component counts the calls
made. -/
def fetchPagesLoop {α : Type} (getPage : Nat → List α) (pageSize : Nat) :
    Nat → Nat → List α × Nat
  | 0, _ => ([], 0)
  | fuel + 1, off =>
      let page := getPage off
      -- if not page_campaigns: break
      if page.isEmpty then ([], 1)
      -- if len(page_campaigns) < page_size: break (last page kept)
      else if page.length < pageSize then (page, 1)
      else
        let rest := fetchPagesLoop getPage pageSize fuel (off + pageSize)
        (page ++ rest.1, rest.2 + 1)

/-- `fetch_all_pages=True` path of `list_all_campaigns`: page size
`min(limit, 500)`, offsets start at 0 and grow in page-size steps. -/
def fetchAllPages {α : Type} (getPage : Nat → List α) (limit fuel : Nat) :
    List α × Nat :=
  fetchPagesLoop getPage (min limit 500) fuel 0

/-- The simplified record assembled per campaign by `list_all_campaigns`
(analytics_routes.py:174-195). -/
structure SC where
  id : String
  name : String
  sendDate : String
  status : String
  totalSends : Int
  uniqueOpens : Int
  uniqueClicks : Int
deriving DecidableEq

/-- `campaigns_list.sort(key=lambda x: x.get("sendDate", ""), reverse=True)`
(analytics_routes.py:198): a stable descending sort on the `sendDate`
string. -/
def sortBySendDateDesc (l : List SC) : List SC :=
  List.insertionSort (fun a b => pyStrLe b.sendDate a.sendDate = true) l

/-- The duplicate-removal pass of `list_all_campaigns`
(analytics_routes.py:200-207): keep the first record seen for each id. -/
def dedupById (seen : List String) : List SC → List SC
  | [] => []
  | c :: cs =>
      if seen.contains c.id then dedupById seen cs
      else c :: dedupById (c.id :: seen) cs

/-- Final assembly of `list_all_campaigns` (analytics_routes.py:184-207):
the simplified paged records followed by the directly-checked records,
then the stable `sendDate`-descending sort, then duplicate removal. -/
def assembleDiagnostic (paged checked : List SC) : List SC :=
  dedupById [] (sortBySendDateDesc (paged ++ checked))

/-! ## Scheduled ingestion (`app/services/scheduler_service.py`)

`update_all_pillars_news` is modelled as a pure function of the pillar
rows read from the store and of each pillar's refresh outcome.  The
`asyncio.sleep` rate-limit delay and the log statements carry no state and
are dropped; the audit insert is modelled as succeeding. -/

/-- A pillar row as read and updated by the scheduler job. -/
structure Pillar where
  id : String
  name : String
  keywords : List String
  newsItems : List String
  lastUpdated : Option Nat
deriving DecidableEq

/-- Outcome of `news_service.fetch_news_with_catchy_titles` for one
pillar: a list of items, or a raised exception. -/
inductive RefreshOutcome where
  | items : List String → RefreshOutcome
  | raises : RefreshOutcome
deriving DecidableEq

/-- The audit row inserted into `cron_jobs`
(scheduler_service.py:116-124). -/
structure CronRecord where
  jobName : String
  status : String
  totalPillars : Nat
  successCount : Nat
  failedCount : Nat
deriving DecidableEq

/-- `category = pillar_name.lower().replace(" ", "_")`
(scheduler_service.py:63).  Replacing a single-character pattern is the
per-character substitution. -/
def pillarCategory (name : String) : String :=
  ⟨(pyLower name).toList.map fun c => if c = ' ' then '_' else c⟩

/-- One iteration of the pillar loop (scheduler_service.py:54-106):
a nonempty refreshed item list replaces the pillar's `news_items` and
`last_updated` and counts as a success; an empty list or a raised
exception leaves the row unchanged and counts as a failure. -/
def processPillar (now : Nat) (p : Pillar) (o : RefreshOutcome) :
    Pillar × Bool :=
  match o with
  | .items l =>
      if !l.isEmpty then
        ({ p with newsItems := l, lastUpdated := some now }, true)
      else (p, false)
  | .raises => (p, false)

/-- `update_all_pillars_news` (scheduler_service.py:17-131).  `refresh`
maps a pillar's derived category to its refresh outcome; `now` is the
timestamp written on success.  Returns the updated pillar rows and the
audit records written (empty pillar list: return early, no record). -/
def updateAllPillarsNews (now : Nat) (pillars : List Pillar)
    (refresh : String → RefreshOutcome) : List Pillar × List CronRecord :=
  if pillars.isEmpty then (pillars, [])
  else
    let step := pillars.map fun p =>
      processPillar now p (refresh (pillarCategory p.name))
    let successCount := (step.filter fun r => r.2).length
    let failCount := (step.filter fun r => !r.2).length
    (step.map Prod.fst,
      [{ jobName := "daily-news-update"
         status := if failCount = 0 then "success" else "partial"
         totalPillars := pillars.length
         successCount := successCount
         failedCount := failCount }])


/-! ## Concrete fixtures used by individual claims -/

/-- Page function serving pages of sizes 500, 500 and 137 at offsets
0, 500 and 1000, and nothing beyond. -/
def pages1137 : Nat → List Nat := fun off =>
  if off = 0 then List.replicate 500 0
  else if off = 500 then List.replicate 500 1
  else if off = 1000 then List.replicate 137 2
  else []

/-- A payload whose `send_amt` field holds the non-numeric string
`"abc"`. -/
def abcDict : Dict := fun k =>
  if k = "send_amt" then some (.str "abc") else Option.none

/-- A payload with 200 unique link clicks and 100 unique opens. -/
def rateDict : Dict := fun k =>
  if k = "uniquelinkclicks" then some (.int 200)
  else if k = "uniqueopens" then some (.int 100)
  else Option.none

/-! ## Helper lemmas -/

/-- Unfolding `calcRate` on plain integer inputs. -/
theorem calcRate_int (a b : Int) :
    calcRate (.int a) (.int b) =
      if b = 0 then 0 else pyRound2 ((a : ℚ) / (b : ℚ) * 100) := by
  by_cases ha : a = 0 <;> by_cases hb : b = 0 <;>
    simp [calcRate, pyOr0, pyTruthy, pyIntCoerce, ha, hb]

/-- `roundHalfEven` at a value whose fractional part is below one half. -/
theorem roundHalfEven_floor_lt {q : ℚ} {f : Int} (hf : ⌊q⌋ = f)
    (h : q - (f : ℚ) < 1/2) : roundHalfEven q = f := by
  unfold roundHalfEven
  rw [hf, if_pos h]

/-- `roundHalfEven` at a value whose fractional part is above one half. -/
theorem roundHalfEven_floor_gt {q : ℚ} {f : Int} (hf : ⌊q⌋ = f)
    (h : 1/2 < q - (f : ℚ)) : roundHalfEven q = f + 1 := by
  unfold roundHalfEven
  rw [hf, if_neg (by linarith), if_pos h]

/-- `roundHalfEven` is the identity on integers. -/
theorem roundHalfEven_intCast (z : Int) : roundHalfEven (z : ℚ) = z := by
  apply roundHalfEven_floor_lt (Int.floor_intCast z)
  norm_num

/-- `pyRound2` is the identity on integers. -/
theorem pyRound2_intCast (z : Int) : pyRound2 (z : ℚ) = z := by
  have h : ((z : ℚ) * 100) = ((z * 100 : Int) : ℚ) := by push_cast; ring
  rw [pyRound2, h, roundHalfEven_intCast]
  push_cast
  ring

/-- `roundHalfEven` of a nonnegative value is nonnegative. -/
theorem roundHalfEven_nonneg {q : ℚ} (h : 0 ≤ q) : 0 ≤ roundHalfEven q := by
  have hf : 0 ≤ ⌊q⌋ := Int.floor_nonneg.mpr h
  unfold roundHalfEven
  by_cases h1 : q - (⌊q⌋ : ℚ) < 1/2
  · rw [if_pos h1]; exact hf
  · rw [if_neg h1]
    by_cases h2 : 1/2 < q - (⌊q⌋ : ℚ)
    · rw [if_pos h2]; omega
    · rw [if_neg h2]
      by_cases h3 : ⌊q⌋ % 2 = 0
      · rw [if_pos h3]; exact hf
      · rw [if_neg h3]; omega

/-- `roundHalfEven` never exceeds an integer upper bound of its input. -/
theorem roundHalfEven_le_intCast {q : ℚ} {B : Int} (h : q ≤ (B : ℚ)) :
    roundHalfEven q ≤ B := by
  have hf : ⌊q⌋ ≤ B := by
    have := Int.floor_le_floor h
    rwa [Int.floor_intCast] at this
  unfold roundHalfEven
  by_cases h1 : q - (⌊q⌋ : ℚ) < 1/2
  · rw [if_pos h1]; exact hf
  · have hlt : ⌊q⌋ < B := by
      rcases lt_or_eq_of_le hf with h' | h'
      · exact h'
      · exfalso
        have h4 : (⌊q⌋ : ℚ) + 1/2 ≤ q := by linarith [not_lt.mp h1]
        rw [h'] at h4
        linarith
    rw [if_neg h1]
    by_cases h2 : 1/2 < q - (⌊q⌋ : ℚ)
    · rw [if_pos h2]; omega
    · rw [if_neg h2]
      by_cases h3 : ⌊q⌋ % 2 = 0
      · rw [if_pos h3]; omega
      · rw [if_neg h3]; omega

/-! ## C2: `_calc_rate` behaviour -/

/-- C2.  `_calc_rate` returns 0.0 whenever the denominator coerces to 0 or
the coercion of either argument raises, and otherwise returns
`round(num/denom * 100, 2)`; in particular `rate(n, 0) = 0` for every `n`,
`rate(50, 200) = 25.0` and `rate(1, 3) = 33.33`.  (The function is total in
the embedding: the Python `except` branch is the coercion-failure case.) -/
theorem c2_calc_rate_spec :
    (∀ n d : PyVal, pyIntCoerce (pyOr0 d) = some 0 → calcRate n d = 0)
    ∧ (∀ n d : PyVal,
        pyIntCoerce (pyOr0 n) = Option.none ∨ pyIntCoerce (pyOr0 d) = Option.none →
        calcRate n d = 0)
    ∧ (∀ (n d : PyVal) (a b : Int),
        pyIntCoerce (pyOr0 n) = some a → pyIntCoerce (pyOr0 d) = some b →
        b ≠ 0 → calcRate n d = pyRound2 ((a : ℚ) / (b : ℚ) * 100))
    ∧ (∀ n : PyVal, calcRate n (.int 0) = 0)
    ∧ calcRate (.int 50) (.int 200) = 25
    ∧ calcRate (.int 1) (.int 3) = 3333/100 := by
  refine ⟨?_, ?_, ?_, ?_, ?_, ?_⟩
  · intro n d hd
    unfold calcRate
    rcases hn : pyIntCoerce (pyOr0 n) with _ | a <;> simp [hn, hd]
  · intro n d h
    unfold calcRate
    rcases h with h | h
    · simp [h]
    · rcases hn : pyIntCoerce (pyOr0 n) with _ | a <;> simp [hn, h]
  · intro n d a b ha hb hb0
    unfold calcRate
    simp [ha, hb, hb0]
  · intro n
    unfold calcRate
    rcases hn : pyIntCoerce (pyOr0 n) with _ | a <;>
      simp [hn, pyOr0, pyTruthy, pyIntCoerce]
  · rw [calcRate_int]
    norm_num [pyRound2]
    rw [roundHalfEven_floor_lt (f := 2500)] <;> norm_num [Int.floor_eq_iff]
  · rw [calcRate_int]
    norm_num [pyRound2]
    rw [roundHalfEven_floor_lt (f := 3333)] <;> norm_num [Int.floor_eq_iff]

/-- Witness for C2: the hypotheses of the componentwise statements are
satisfiable at concrete inputs. -/
theorem c2_calc_rate_spec_witness :
    (pyIntCoerce (pyOr0 (PyVal.str "x")) = Option.none
      ∨ pyIntCoerce (pyOr0 (PyVal.int 5)) = Option.none)
    ∧ calcRate (.str "x") (.int 5) = 0
    ∧ calcRate (.int 7) (.int 0) = 0 :=
  ⟨Or.inl (by decide),
   c2_calc_rate_spec.2.1 (.str "x") (.int 5) (Or.inl (by decide)),
   c2_calc_rate_spec.2.2.2.1 (.int 7)⟩

/-! ## C5/C6: the Editorial Digest filter -/

/-- The predicate with the fail-open case excluded is the disjunction of
the ID-membership test and the name-pattern test. -/
theorem isEditorial_not_fail_open (cfg : FilterCfg) (id name : String)
    (h : (cfg.allowedIds.isEmpty && (cfg.namePattern == "")) = false) :
    isEditorialDigestCampaign cfg id name =
      ((!cfg.allowedIds.isEmpty
          && (cfg.allowedIds.map pyStrip).contains (pyStrip id))
        || ((cfg.namePattern != "") && (name != "")
          && pySubstr (pyStrip (pyLower cfg.namePattern)) (pyLower name))) := by
  unfold isEditorialDigestCampaign
  rw [h]
  cases hb2 : (!cfg.allowedIds.isEmpty
      && (cfg.allowedIds.map pyStrip).contains (pyStrip id)) <;>
  cases hb3 : ((cfg.namePattern != "") && (name != "")
      && pySubstr (pyStrip (pyLower cfg.namePattern)) (pyLower name)) <;>
  simp [hb2, hb3]

/-- Propositional characterization of the predicate outside fail-open. -/
theorem accepts_iff (cfg : FilterCfg) (id name : String)
    (h : ¬ (cfg.allowedIds = [] ∧ cfg.namePattern = "")) :
    isEditorialDigestCampaign cfg id name = true ↔
      ((cfg.allowedIds ≠ [] ∧ pyStrip id ∈ cfg.allowedIds.map pyStrip)
        ∨ (cfg.namePattern ≠ "" ∧ name ≠ ""
          ∧ pySubstr (pyStrip (pyLower cfg.namePattern)) (pyLower name) = true)) := by
  have hb : (cfg.allowedIds.isEmpty && (cfg.namePattern == "")) = false := by
    rcases heq : cfg.allowedIds with _ | ⟨a, as⟩
    · have hP : cfg.namePattern ≠ "" := fun hP => h ⟨heq, hP⟩
      simp [hP]
    · simp
  rw [isEditorial_not_fail_open cfg id name hb]
  simp only [Bool.or_eq_true, Bool.and_eq_true, List.elem_iff, bne_iff_ne,
    Bool.not_eq_true', List.isEmpty_eq_false, ne_eq]
  tauto

/-- C5.  The `accepts` predicate: fail-open when the allow-list and the
name pattern are both empty; outside fail-open it is the logical OR of
trimmed-ID membership and the case-insensitive name-substring test; with
only an allow-list configured it accepts exactly the members; and the
spec's concrete instances hold. -/
theorem c5_accepts_spec :
    (∀ id name : String, isEditorialDigestCampaign ⟨[], ""⟩ id name = true)
    ∧ (∀ (cfg : FilterCfg) (id name : String),
        ¬ (cfg.allowedIds = [] ∧ cfg.namePattern = "") →
        (isEditorialDigestCampaign cfg id name = true ↔
          ((cfg.allowedIds ≠ [] ∧ pyStrip id ∈ cfg.allowedIds.map pyStrip)
            ∨ (cfg.namePattern ≠ "" ∧ name ≠ ""
              ∧ pySubstr (pyStrip (pyLower cfg.namePattern)) (pyLower name) = true))))
    ∧ (∀ (ids : List String) (id name : String), ids ≠ [] →
        (isEditorialDigestCampaign ⟨ids, ""⟩ id name = true ↔
          pyStrip id ∈ ids.map pyStrip))
    ∧ isEditorialDigestCampaign ⟨["330", "329"], ""⟩ "330" "anything" = true
    ∧ isEditorialDigestCampaign ⟨["330", "329"], ""⟩ "331" "anything" = false
    ∧ isEditorialDigestCampaign ⟨[], "Weekly Newsletter"⟩ "999"
        "Weekly Newsletter 28 January 2026" = true := by
  refine ⟨?_, accepts_iff, ?_, by decide, by decide, by decide⟩
  · intro id name
    rfl
  · intro ids id name hids
    rw [accepts_iff ⟨ids, ""⟩ id name (by simp [hids])]
    simp [hids]

/-- Witness for C5: the characterization applied at a concrete
configuration and campaign. -/
theorem c5_accepts_spec_witness :
    (¬((["330"] : List String) = [] ∧ ("" : String) = ""))
    ∧ isEditorialDigestCampaign ⟨["330"], ""⟩ "330" "x" = true :=
  ⟨by decide,
   (c5_accepts_spec.2.1 ⟨["330"], ""⟩ "330" "x" (by decide)).mpr
     (Or.inl ⟨by decide, by decide⟩)⟩

/-- C6 counterexample.  For the whitespace-only name pattern `" "` the
list filter and the single-campaign predicate disagree: the predicate
accepts the campaign (the stripped-empty pattern is a substring of any
non-empty name) while the list filter drops it (its truthiness test runs
on the *stripped* pattern).  So `filter_campaigns` is not the pointwise
filter by `is_editorial_digest_campaign`. -/
theorem c6_counterexample :
    ¬ (filterCampaigns ⟨[], " "⟩ [⟨"1", "x"⟩] =
        List.filter (fun c => isEditorialDigestCampaign ⟨[], " "⟩ c.id c.name)
          [⟨"1", "x"⟩]) := by decide

/-- C6 (amended).  For every configuration whose name pattern is empty or
does not strip to the empty string — i.e. every pattern that is not
whitespace-only — `filter_campaigns` returns exactly the campaigns
accepted by `is_editorial_digest_campaign`, in the original relative order
(it is `List.filter`, which preserves order). -/
theorem c6_filter_matches_predicate (cfg : FilterCfg) (campaigns : List CampF)
    (h : cfg.namePattern = "" ∨ pyStrip (pyLower cfg.namePattern) ≠ "") :
    filterCampaigns cfg campaigns =
      campaigns.filter fun c => isEditorialDigestCampaign cfg c.id c.name := by
  unfold filterCampaigns filterCampaignsBy
  by_cases hb : (cfg.allowedIds.isEmpty && (cfg.namePattern == "")) = true
  · rw [if_pos hb]
    symm
    apply List.filter_eq_self.mpr
    intro c _
    unfold isEditorialDigestCampaign
    rw [if_pos hb]
  · have hb' : (cfg.allowedIds.isEmpty && (cfg.namePattern == "")) = false := by
      simpa using hb
    rw [if_neg hb]
    apply List.filter_congr
    intro c _
    rw [isEditorial_not_fail_open cfg c.id c.name hb']
    rcases h with hP | hS
    · simp [hP]
    · have hS' : (pyStrip (pyLower cfg.namePattern) != "") = true := by
        simpa [bne_iff_ne] using hS
      rw [hS']
      simp

/-- Witness for C6: the amended equivalence at a concrete configuration
with a non-whitespace pattern state. -/
theorem c6_filter_matches_predicate_witness :
    (((⟨["330"], ""⟩ : FilterCfg).namePattern = ""
      ∨ pyStrip (pyLower ((⟨["330"], ""⟩ : FilterCfg).namePattern)) ≠ ""))
    ∧ filterCampaigns ⟨["330"], ""⟩ [⟨"330", "a"⟩, ⟨"1", "b"⟩] =
        List.filter (fun c => isEditorialDigestCampaign ⟨["330"], ""⟩ c.id c.name)
          [⟨"330", "a"⟩, ⟨"1", "b"⟩] :=
  ⟨Or.inl rfl,
   c6_filter_matches_predicate ⟨["330"], ""⟩ [⟨"330", "a"⟩, ⟨"1", "b"⟩] (Or.inl rfl)⟩

/-! ## C3: access narrowing on the single-campaign routes -/

/-- C3.  When the direct fetch succeeds but the Editorial Digest predicate
rejects the campaign, both `get_campaign_report` and `get_campaign_links`
fail with HTTP 404 instead of returning the data; and an upstream
fetch error carrying "404" also produces HTTP 404 on both routes, so the
status code does not distinguish "does not exist" from "exists but is
outside the tracked family". -/
theorem c3_filtered_campaign_not_found (cfg : FilterCfg) (campaignId : String)
    (campaign : CampaignN) (links : List LinkN)
    (h : isEditorialDigestCampaign cfg campaignId campaign.name = false) :
    getCampaignReportRoute cfg campaignId (.ok campaign) = .error 404
    ∧ getCampaignLinksRoute cfg campaignId (.ok campaign) links = .error 404
    ∧ (∀ e : String, pySubstr "404" e = true →
        getCampaignReportRoute cfg campaignId (.error e) = .error 404
        ∧ getCampaignLinksRoute cfg campaignId (.error e) links = .error 404) := by
  refine ⟨?_, ?_, ?_⟩
  · simp [getCampaignReportRoute, h]
  · simp [getCampaignLinksRoute, h]
  · intro e he
    constructor
    · simp [getCampaignReportRoute, classifyReportFetchError, he]
    · simp [getCampaignLinksRoute, classifyLinksFetchError, he]

/-- Witness for C3: a campaign outside the allow-list, fetched
successfully, is rejected with 404 by the report route. -/
theorem c3_filtered_campaign_not_found_witness :
    isEditorialDigestCampaign ⟨["330", "329"], ""⟩ "331"
        (⟨"331", "Other", "", "Draft", "", "", "", 0, 0, 0, 0, 0, 0, 0, 0, 0,
          0, 0, 0, 0, 0, 0, 0, 0, 0, 0, 0, 0, 0⟩ : CampaignN).name = false
    ∧ getCampaignReportRoute ⟨["330", "329"], ""⟩ "331"
        (.ok ⟨"331", "Other", "", "Draft", "", "", "", 0, 0, 0, 0, 0, 0, 0, 0,
          0, 0, 0, 0, 0, 0, 0, 0, 0, 0, 0, 0, 0, 0⟩) = .error 404 :=
  ⟨by decide,
   (c3_filtered_campaign_not_found ⟨["330", "329"], ""⟩ "331"
      ⟨"331", "Other", "", "Draft", "", "", "", 0, 0, 0, 0, 0, 0, 0, 0, 0,
        0, 0, 0, 0, 0, 0, 0, 0, 0, 0, 0, 0, 0⟩ [] (by decide)).1⟩

/-! ## C10: the allow-list branch ignores paging -/

/-- C10.  With a non-empty configured allow-list, the `/campaigns` handler
never consults `limit`/`offset` (nor the list endpoint at all): the result
is one cleaned entry per successfully fetched allow-list ID, in allow-list
order, and calls with different limits, offsets, or even different paged
providers return identical results. -/
theorem c10_allowlist_ignores_paging (cfg : FilterCfg)
    (fetchById : String → Option CampaignN)
    (listPage listPage' : Nat → Nat → List CampaignN)
    (l₁ o₁ l₂ o₂ : Nat) (h : cfg.allowedIds ≠ []) :
    getCampaignsRoute cfg fetchById listPage l₁ o₁ =
      (cfg.allowedIds.filterMap fetchById).map cleanCampaign
    ∧ getCampaignsRoute cfg fetchById listPage l₁ o₁ =
      getCampaignsRoute cfg fetchById listPage' l₂ o₂ := by
  have hb : cfg.allowedIds.isEmpty = false := by
    simpa [List.isEmpty_iff] using h
  constructor
  · simp [getCampaignsRoute, hb]
  · simp [getCampaignsRoute, hb]

/-- Witness for C10: a two-ID allow-list with one failing fetch, checked
against two different paging arguments. -/
theorem c10_allowlist_ignores_paging_witness :
    ((⟨["330", "329"], ""⟩ : FilterCfg).allowedIds ≠ [])
    ∧ getCampaignsRoute ⟨["330", "329"], ""⟩ (fun _ => Option.none)
        (fun _ _ => []) 100 0 =
      getCampaignsRoute ⟨["330", "329"], ""⟩ (fun _ => Option.none)
        (fun _ _ => []) 7 3 :=
  ⟨by decide,
   (c10_allowlist_ignores_paging ⟨["330", "329"], ""⟩ (fun _ => Option.none)
      (fun _ _ => []) (fun _ _ => []) 100 0 7 3 (by decide)).2⟩

/-! ## C7: pagination loop -/

/-- A page shorter than the page size (or empty) is terminal: exactly one
further call is made and the loop stops. -/
theorem fetchPagesLoop_last {α : Type} (getPage : Nat → List α)
    (pageSize off fuel : Nat) (h : (getPage off).length < pageSize) :
    fetchPagesLoop getPage pageSize (fuel + 1) off = (getPage off, 1) := by
  by_cases he : getPage off = []
  · simp [fetchPagesLoop, he]
  · have he' : (getPage off).isEmpty = false := by
      simpa [List.isEmpty_iff] using he
    simp [fetchPagesLoop, he', h]

/-- A full page is kept and the loop continues at the next offset, one
page-size step further. -/
theorem fetchPagesLoop_step {α : Type} (getPage : Nat → List α)
    (pageSize off fuel : Nat) (h1 : getPage off ≠ [])
    (h2 : ¬ (getPage off).length < pageSize) :
    fetchPagesLoop getPage pageSize (fuel + 1) off =
      (getPage off ++ (fetchPagesLoop getPage pageSize fuel (off + pageSize)).1,
        (fetchPagesLoop getPage pageSize fuel (off + pageSize)).2 + 1) := by
  have he' : (getPage off).isEmpty = false := by
    simpa [List.isEmpty_iff] using h1
  simp [fetchPagesLoop, he', h2]

/-- C7.  The `fetch_all_pages` loop requests offsets 0, pageSize,
2·pageSize, … and stops at the first page shorter than the page size
(or empty), returning the concatenation of the pages seen; on a provider
serving pages of sizes 500, 500 and 137 it makes exactly 3 calls and
returns exactly 1137 rows, for every private fuel bound that admits three
iterations. -/
theorem c7_pagination_spec :
    (∀ (α : Type) (getPage : Nat → List α) (pageSize off fuel : Nat),
      (getPage off).length < pageSize →
      fetchPagesLoop getPage pageSize (fuel + 1) off = (getPage off, 1))
    ∧ (∀ (α : Type) (getPage : Nat → List α) (pageSize off fuel : Nat),
      getPage off ≠ [] → ¬ (getPage off).length < pageSize →
      fetchPagesLoop getPage pageSize (fuel + 1) off =
        (getPage off ++ (fetchPagesLoop getPage pageSize fuel (off + pageSize)).1,
          (fetchPagesLoop getPage pageSize fuel (off + pageSize)).2 + 1))
    ∧ (∀ k : Nat,
        (fetchAllPages pages1137 500 (k + 3)).1.length = 1137
        ∧ (fetchAllPages pages1137 500 (k + 3)).2 = 3) := by
  refine ⟨fun α g ps off fuel h => fetchPagesLoop_last g ps off fuel h,
    fun α g ps off fuel h1 h2 => fetchPagesLoop_step g ps off fuel h1 h2, ?_⟩
  intro k
  have s2 : fetchPagesLoop pages1137 500 (k + 1) 1000 = (List.replicate 137 2, 1) := by
    have h := fetchPagesLoop_last pages1137 500 1000 k (by simp [pages1137])
    simpa [pages1137] using h
  have s1 : fetchPagesLoop pages1137 500 (k + 2) 500 =
      (List.replicate 500 1 ++ List.replicate 137 2, 2) := by
    have h := fetchPagesLoop_step pages1137 500 500 (k + 1)
      (by simp [pages1137]) (by simp [pages1137])
    rw [show k + 2 = (k + 1) + 1 from rfl, h]
    norm_num [s2]
    rfl
  have s0 : fetchPagesLoop pages1137 500 (k + 3) 0 =
      (List.replicate 500 0 ++ (List.replicate 500 1 ++ List.replicate 137 2), 3) := by
    have h := fetchPagesLoop_step pages1137 500 0 (k + 2)
      (by simp [pages1137]) (by simp [pages1137])
    rw [show k + 3 = (k + 2) + 1 from rfl, h]
    norm_num [s1]
    rfl
  have hall : fetchAllPages pages1137 500 (k + 3) =
      fetchPagesLoop pages1137 500 (k + 3) 0 := by
    unfold fetchAllPages
    norm_num
  rw [hall, s0]
  simp

/-- Witness for C7: the terminal-page law applied to a concrete provider
whose first page is already empty. -/
theorem c7_pagination_spec_witness :
    (((fun _ => ([] : List Nat)) 0).length < 5)
    ∧ fetchPagesLoop (fun _ => ([] : List Nat)) 5 (0 + 1) 0 = ([], 1) :=
  ⟨by decide, c7_pagination_spec.1 Nat (fun _ => []) 5 0 0 (by decide)⟩

/-! ## C8: diagnostic list assembly -/

/-- `lexLe` is total. -/
theorem lexLe_total : ∀ x y : List Char, lexLe x y = true ∨ lexLe y x = true
  | [], _ => Or.inl rfl
  | _ :: _, [] => Or.inr rfl
  | a :: as, b :: bs => by
      rcases lt_trichotomy a b with h | h | h
      · left; simp [lexLe, h]
      · subst h
        rcases lexLe_total as bs with ih | ih
        · left; simp [lexLe, ih]
        · right; simp [lexLe, ih]
      · right; simp [lexLe, h]

/-- `lexLe` is transitive. -/
theorem lexLe_trans : ∀ x y z : List Char,
    lexLe x y = true → lexLe y z = true → lexLe x z = true
  | [], _, _, _, _ => rfl
  | _ :: _, [], _, h1, _ => by simp [lexLe] at h1
  | _ :: _, _ :: _, [], _, h2 => by simp [lexLe] at h2
  | a :: as, b :: bs, c :: cs, h1, h2 => by
      simp only [lexLe] at h1 h2 ⊢
      rcases lt_trichotomy a b with hab | hab | hab
      · rcases lt_trichotomy b c with hbc | hbc | hbc
        · simp [lt_trans hab hbc]
        · subst hbc; simp [hab]
        · rw [if_neg (asymm hbc), if_pos hbc] at h2
          simp at h2
      · subst hab
        rw [if_neg (lt_irrefl a), if_neg (lt_irrefl a)] at h1
        rcases lt_trichotomy a c with hac | hac | hac
        · simp [hac]
        · subst hac
          rw [if_neg (lt_irrefl a), if_neg (lt_irrefl a)] at h2 ⊢
          exact lexLe_trans as bs cs h1 h2
        · rw [if_neg (asymm hac), if_pos hac] at h2
          simp at h2
      · rw [if_neg (asymm hab), if_pos hab] at h1
        simp at h1

/-- The diagnostic sort produces a `sendDate`-descending list. -/
theorem sorted_sortBySendDateDesc (l : List SC) :
    List.Sorted (fun a b => pyStrLe b.sendDate a.sendDate = true)
      (sortBySendDateDesc l) := by
  haveI : IsTotal SC (fun a b => pyStrLe b.sendDate a.sendDate = true) :=
    ⟨fun a b => lexLe_total b.sendDate.toList a.sendDate.toList⟩
  haveI : IsTrans SC (fun a b => pyStrLe b.sendDate a.sendDate = true) :=
    ⟨fun a b c hab hbc => lexLe_trans _ _ _ hbc hab⟩
  exact List.sorted_insertionSort _ l

/-- The duplicate-removal pass yields a subsequence of its input. -/
theorem dedupById_sublist : ∀ (seen : List String) (l : List SC),
    List.Sublist (dedupById seen l) l
  | _, [] => by simp [dedupById]
  | seen, c :: cs => by
      unfold dedupById
      by_cases h : seen.contains c.id = true
      · rw [if_pos h]
        exact (dedupById_sublist seen cs).cons c
      · rw [if_neg h]
        exact (dedupById_sublist (c.id :: seen) cs).cons₂ c

/-- Entries surviving duplicate removal have ids outside `seen`. -/
theorem dedupById_mem_not_seen : ∀ (seen : List String) (l : List SC) (c : SC),
    c ∈ dedupById seen l → c.id ∉ seen
  | seen, [], c, h => by simp [dedupById] at h
  | seen, d :: ds, c, h => by
      unfold dedupById at h
      by_cases hd : seen.contains d.id = true
      · rw [if_pos hd] at h
        exact dedupById_mem_not_seen seen ds c h
      · rw [if_neg hd] at h
        rcases List.mem_cons.mp h with rfl | h'
        · intro hmem
          exact hd (List.elem_iff.mpr hmem)
        · have := dedupById_mem_not_seen (d.id :: seen) ds c h'
          intro hmem
          exact this (List.mem_cons_of_mem _ hmem)

/-- After duplicate removal each id occurs at most once. -/
theorem dedupById_nodup : ∀ (seen : List String) (l : List SC),
    ((dedupById seen l).map SC.id).Nodup
  | seen, [] => by simp [dedupById]
  | seen, d :: ds => by
      unfold dedupById
      by_cases hd : seen.contains d.id = true
      · rw [if_pos hd]
        exact dedupById_nodup seen ds
      · rw [if_neg hd]
        simp only [List.map_cons, List.nodup_cons]
        refine ⟨?_, dedupById_nodup (d.id :: seen) ds⟩
        intro hmem
        rcases List.mem_map.mp hmem with ⟨c, hc, hcid⟩
        have hnot := dedupById_mem_not_seen (d.id :: seen) ds c hc
        apply hnot
        rw [hcid]
        exact List.mem_cons_self _ _

/-- Every id of the input survives duplicate removal on some entry. -/
theorem dedupById_covers : ∀ (seen : List String) (l : List SC) (c : SC),
    c ∈ l → c.id ∉ seen → ∃ c', c' ∈ dedupById seen l ∧ c'.id = c.id
  | _, [], c, h, _ => absurd h (List.not_mem_nil c)
  | seen, d :: ds, c, h, hs => by
      unfold dedupById
      by_cases hd : seen.contains d.id = true
      · rw [if_pos hd]
        rcases List.mem_cons.mp h with rfl | h'
        · exact absurd (List.elem_iff.mp hd) hs
        · exact dedupById_covers seen ds c h' hs
      · rw [if_neg hd]
        rcases List.mem_cons.mp h with rfl | h'
        · exact ⟨c, List.mem_cons_self _ _, rfl⟩
        · by_cases hcd : c.id = d.id
          · exact ⟨d, List.mem_cons_self _ _, hcd.symm⟩
          · have hnot : c.id ∉ d.id :: seen := by
              intro hmem
              rcases List.mem_cons.mp hmem with h1 | h1
              · exact hcd h1
              · exact hs h1
            rcases dedupById_covers (d.id :: seen) ds c h' hnot with ⟨c', hc', hid⟩
            exact ⟨c', List.mem_cons_of_mem _ hc', hid⟩

/-- C8 counterexample.  The handler sorts by `sendDate` *before*
deduplicating, so when the same id appears with two different send dates
the surviving entry is the one with the lexically greater date — here the
directly-checked record "B", not the first-seen paged record "A". -/
theorem c8_counterexample :
    assembleDiagnostic [⟨"5", "A", "2020-01-01", "Completed", 10, 1, 1⟩]
        [⟨"5", "B", "2021-01-01", "Completed", 10, 1, 1⟩] =
      [⟨"5", "B", "2021-01-01", "Completed", 10, 1, 1⟩]
    ∧ (⟨"5", "B", "2021-01-01", "Completed", 10, 1, 1⟩ : SC) ≠
      ⟨"5", "A", "2020-01-01", "Completed", 10, 1, 1⟩ := by decide

/-- C8 (amended).  The diagnostic assembly appends the checked records to
the paged records, sorts the combined list stably by `sendDate` descending
(lexical string order, empty dates last) and *then* deduplicates by id,
first occurrence in sorted order winning.  Consequently: ids are unique in
the output; the output is `sendDate`-descending; every output entry comes
from the input; every input id is represented; and when duplicate entries
share the same `sendDate` the first-seen one wins (stability). -/
theorem c8_assemble_spec (paged checked : List SC) :
    ((assembleDiagnostic paged checked).map SC.id).Nodup
    ∧ List.Sorted (fun a b => pyStrLe b.sendDate a.sendDate = true)
        (assembleDiagnostic paged checked)
    ∧ (∀ c ∈ assembleDiagnostic paged checked, c ∈ paged ++ checked)
    ∧ (∀ c ∈ paged ++ checked,
        ∃ c', c' ∈ assembleDiagnostic paged checked ∧ c'.id = c.id)
    ∧ assembleDiagnostic [⟨"5", "A", "2020-01-01", "Completed", 10, 1, 1⟩]
        [⟨"5", "B", "2020-01-01", "NOT_FOUND", 0, 0, 0⟩] =
      [⟨"5", "A", "2020-01-01", "Completed", 10, 1, 1⟩] := by
  refine ⟨dedupById_nodup [] _, ?_, ?_, ?_, by decide⟩
  · exact List.Pairwise.sublist (dedupById_sublist [] _)
      (sorted_sortBySendDateDesc (paged ++ checked))
  · intro c hc
    have h1 : c ∈ sortBySendDateDesc (paged ++ checked) :=
      (dedupById_sublist [] _).subset hc
    have h2 : List.Perm (sortBySendDateDesc (paged ++ checked)) (paged ++ checked) :=
      List.perm_insertionSort _ _
    exact h2.subset h1
  · intro c hc
    have h2 : List.Perm (paged ++ checked) (sortBySendDateDesc (paged ++ checked)) :=
      (List.perm_insertionSort _ _).symm
    exact dedupById_covers [] _ c (h2.subset hc) (List.not_mem_nil _)

/-- Witness for C8: the amended properties at a concrete one-element
input. -/
theorem c8_assemble_spec_witness :
    ((assembleDiagnostic [⟨"1", "A", "2020", "Draft", 0, 0, 0⟩] []).map SC.id).Nodup :=
  (c8_assemble_spec [⟨"1", "A", "2020", "Draft", 0, 0, 0⟩] []).1

/-! ## C4: defensive coercion in the normalization -/

/-- An absent or null counter field coerces to 0. -/
theorem intField_absent_or_null (d : Dict) (k : String)
    (h : d k = Option.none ∨ d k = some PyVal.none) : intField d k = some 0 := by
  rcases h with h | h <;>
    simp [intField, dGet, h, pyOr0, pyTruthy, pyIntCoerce]

/-- An integer counter field coerces to itself. -/
theorem intField_int (d : Dict) (k : String) (z : Int)
    (h : d k = some (.int z)) : intField d k = some z := by
  by_cases hz : z = 0 <;>
    simp [intField, dGet, h, pyOr0, pyTruthy, pyIntCoerce, hz]

/-- A counter field that is absent, null or an integer coerces without
raising. -/
theorem intField_some_of (d : Dict) (k : String)
    (h : d k = Option.none ∨ d k = some PyVal.none
      ∨ ∃ z : Int, d k = some (.int z)) :
    ∃ z : Int, intField d k = some z := by
  rcases h with h | h | ⟨z, h⟩
  · exact ⟨0, intField_absent_or_null d k (Or.inl h)⟩
  · exact ⟨0, intField_absent_or_null d k (Or.inr h)⟩
  · exact ⟨z, intField_int d k z h⟩

/-- An absent or null string field coerces to the empty string. -/
theorem strField_empty (d : Dict) (k : String)
    (h : d k = Option.none ∨ d k = some PyVal.none) : strField d k = "" := by
  rcases h with h | h <;> simp [strField, dGetN, dGet, h, pyTruthy]

/-- C4 counterexample.  A payload whose `send_amt` holds the non-numeric
string `"abc"` makes the normalization of both `get_campaigns` and
`get_campaign_by_id` raise (`int("abc")` is outside the `try` that guards
only the HTTP call), so normalization does not complete for *every*
payload. -/
theorem c4_counterexample :
    normalizeCampaignList abcDict = Option.none
    ∧ normalizeCampaignById abcDict = Option.none := by decide

/-- C4 (amended).  The normalization of `get_campaigns` and
`get_campaign_by_id` completes without raising for every payload whose
counter fields are absent, null or integers — absent/null counters coerce
to 0 and absent/null string fields to the empty string — but a counter
field holding a non-numeric string raises. -/
theorem c4_normalization (d : Dict)
    (h : ∀ k ∈ counterKeys, d k = Option.none ∨ d k = some PyVal.none
          ∨ ∃ z : Int, d k = some (.int z)) :
    (normalizeCampaignList d).isSome = true
    ∧ (normalizeCampaignById d).isSome = true
    ∧ (∀ k ∈ counterKeys, (d k = Option.none ∨ d k = some PyVal.none) →
        intField d k = some 0)
    ∧ (∀ k : String, (d k = Option.none ∨ d k = some PyVal.none) →
        strField d k = "") := by
  have hrc : (readCounters d).isSome = true := by
    obtain ⟨z1, hz1⟩ := intField_some_of d "send_amt" (h _ (by decide))
    obtain ⟨z2, hz2⟩ := intField_some_of d "total_amt" (h _ (by decide))
    obtain ⟨z3, hz3⟩ := intField_some_of d "opens" (h _ (by decide))
    obtain ⟨z4, hz4⟩ := intField_some_of d "uniqueopens" (h _ (by decide))
    obtain ⟨z5, hz5⟩ := intField_some_of d "linkclicks" (h _ (by decide))
    obtain ⟨z6, hz6⟩ := intField_some_of d "uniquelinkclicks" (h _ (by decide))
    obtain ⟨z7, hz7⟩ := intField_some_of d "subscriberclicks" (h _ (by decide))
    obtain ⟨z8, hz8⟩ := intField_some_of d "hardbounces" (h _ (by decide))
    obtain ⟨z9, hz9⟩ := intField_some_of d "softbounces" (h _ (by decide))
    obtain ⟨z10, hz10⟩ := intField_some_of d "forwards" (h _ (by decide))
    obtain ⟨z11, hz11⟩ := intField_some_of d "uniqueforwards" (h _ (by decide))
    obtain ⟨z12, hz12⟩ := intField_some_of d "unsubscribes" (h _ (by decide))
    obtain ⟨z13, hz13⟩ := intField_some_of d "unsubreasons" (h _ (by decide))
    obtain ⟨z14, hz14⟩ := intField_some_of d "replies" (h _ (by decide))
    obtain ⟨z15, hz15⟩ := intField_some_of d "uniquereplies" (h _ (by decide))
    obtain ⟨z16, hz16⟩ := intField_some_of d "socialshares" (h _ (by decide))
    simp [readCounters, counterKeys, mapOptAll, hz1, hz2, hz3, hz4, hz5, hz6,
      hz7, hz8, hz9, hz10, hz11, hz12, hz13, hz14, hz15, hz16]
  refine ⟨?_, ?_, fun k _ hk => intField_absent_or_null d k hk,
    fun k hk => strField_empty d k hk⟩
  · simpa [normalizeCampaignList, normalizeWith] using hrc
  · simpa [normalizeCampaignById, normalizeWith] using hrc

/-- Witness for C4: the all-absent payload normalizes successfully. -/
theorem c4_normalization_witness :
    (∀ k ∈ counterKeys, emptyDict k = Option.none ∨ emptyDict k = some PyVal.none
      ∨ ∃ z : Int, emptyDict k = some (.int z))
    ∧ (normalizeCampaignList emptyDict).isSome = true :=
  ⟨fun _ _ => Or.inl rfl, (c4_normalization emptyDict (fun _ _ => Or.inl rfl)).1⟩

/-! ## C9: derived rates -/

/-- Each rate field of a normalized campaign is `_calc_rate` applied to
exactly its documented numerator/denominator fields of the payload. -/
theorem normalizeWith_rates (subject : String) (d : Dict) (c : CampaignN)
    (h : normalizeWith subject d = some c) :
    c.openRate = calcRate (dGetN d "uniqueopens") (dGetN d "send_amt")
    ∧ c.clickRate = calcRate (dGetN d "uniquelinkclicks") (dGetN d "send_amt")
    ∧ c.clickToOpenRate = calcRate (dGetN d "uniquelinkclicks") (dGetN d "uniqueopens")
    ∧ c.bounceRate = calcRate (.int (c.hardBounces + c.softBounces)) (dGetN d "send_amt")
    ∧ c.unsubscribeRate = calcRate (dGetN d "unsubscribes") (dGetN d "send_amt")
    ∧ c.forwardRate = calcRate (dGetN d "uniqueforwards") (dGetN d "send_amt") := by
  rcases hm : readCounters d with _ | k
  · rw [normalizeWith, hm] at h
    simp at h
  · rw [normalizeWith, hm] at h
    simp only [Option.map_some', Option.some.injEq] at h
    subst h
    exact ⟨rfl, rfl, rfl, rfl, rfl, rfl⟩

/-- C9 counterexample.  A payload with 200 unique link clicks and 100
unique opens normalizes to a campaign whose `clickToOpenRate` is 200.0,
which exceeds 100 — the derived rates are not clamped to [0, 100]. -/
theorem c9_counterexample :
    (normalizeCampaignList rateDict).map CampaignN.clickToOpenRate = some 200
    ∧ ¬ ((200 : ℚ) ≤ 100) := by
  constructor
  · have h1 : (normalizeCampaignList rateDict).map CampaignN.clickToOpenRate =
        some (calcRate (.int 200) (.int 100)) := rfl
    have h2 : calcRate (.int 200) (.int 100) = 200 := by
      rw [calcRate_int]
      have h3 : ((200 : ℤ) : ℚ) / ((100 : ℤ) : ℚ) * 100 = ((200 : ℤ) : ℚ) := by
        push_cast
        norm_num
      rw [if_neg (by norm_num), h3, pyRound2_intCast]
      norm_num
    rw [h1, h2]
  · norm_num

/-- C9 (amended).  For nonnegative integer counters every rate is a
well-defined nonnegative rational with two decimal places (an integer
number of hundredths), it is at most 100 whenever the numerator does not
exceed the denominator, and each rate field of a normalized campaign
depends only on its documented numerator/denominator pair; rates are not
clamped, so a numerator above the denominator produces a rate above 100
(see the counterexample). -/
theorem c9_rates_spec :
    (∀ n dn : Int, 0 ≤ n → 0 ≤ dn → 0 ≤ calcRate (.int n) (.int dn))
    ∧ (∀ n dn : Int, ∃ k : Int, calcRate (.int n) (.int dn) = (k : ℚ) / 100)
    ∧ (∀ n dn : Int, 0 ≤ n → n ≤ dn → calcRate (.int n) (.int dn) ≤ 100)
    ∧ (∀ (d : Dict) (c : CampaignN), normalizeCampaignList d = some c →
        c.openRate = calcRate (dGetN d "uniqueopens") (dGetN d "send_amt")
        ∧ c.clickRate = calcRate (dGetN d "uniquelinkclicks") (dGetN d "send_amt")
        ∧ c.clickToOpenRate = calcRate (dGetN d "uniquelinkclicks") (dGetN d "uniqueopens")
        ∧ c.bounceRate = calcRate (.int (c.hardBounces + c.softBounces)) (dGetN d "send_amt")
        ∧ c.unsubscribeRate = calcRate (dGetN d "unsubscribes") (dGetN d "send_amt")
        ∧ c.forwardRate = calcRate (dGetN d "uniqueforwards") (dGetN d "send_amt")) := by
  refine ⟨?_, ?_, ?_, fun d c h => normalizeWith_rates "" d c h⟩
  · intro n dn hn hdn
    rw [calcRate_int]
    split_ifs with h
    · exact le_refl 0
    · have hdnpos : (0 : ℚ) < (dn : ℚ) := by
        have : (0 : ℤ) < dn := lt_of_le_of_ne hdn (Ne.symm h)
        exact_mod_cast this
      have hq : (0 : ℚ) ≤ (n : ℚ) / (dn : ℚ) * 100 * 100 := by
        have hn' : (0 : ℚ) ≤ (n : ℚ) := by exact_mod_cast hn
        positivity
      have h2 := roundHalfEven_nonneg hq
      unfold pyRound2
      have h3 : (0 : ℚ) ≤ ((roundHalfEven ((n : ℚ) / (dn : ℚ) * 100 * 100)) : ℚ) := by
        exact_mod_cast h2
      linarith
  · intro n dn
    rw [calcRate_int]
    split_ifs with h
    · exact ⟨0, by norm_num⟩
    · exact ⟨roundHalfEven ((n : ℚ) / (dn : ℚ) * 100 * 100), rfl⟩
  · intro n dn hn hle
    rw [calcRate_int]
    split_ifs with h
    · norm_num
    · have hdn0 : (0 : ℤ) ≤ dn := le_trans hn hle
      have hdnpos : (0 : ℚ) < (dn : ℚ) := by
        have : (0 : ℤ) < dn := lt_of_le_of_ne hdn0 (Ne.symm h)
        exact_mod_cast this
      have h1 : (n : ℚ) / (dn : ℚ) ≤ 1 := by
        rw [div_le_one hdnpos]
        exact_mod_cast hle
      have h2 : (n : ℚ) / (dn : ℚ) * 100 * 100 ≤ ((10000 : ℤ) : ℚ) := by
        push_cast
        nlinarith
      have h3 := roundHalfEven_le_intCast h2
      unfold pyRound2
      rw [div_le_iff₀ (by norm_num : (0 : ℚ) < 100)]
      calc ((roundHalfEven ((n : ℚ) / (dn : ℚ) * 100 * 100)) : ℚ)
          ≤ ((10000 : ℤ) : ℚ) := by exact_mod_cast h3
        _ = 100 * 100 := by norm_num

/-- Witness for C9: the bound applied at concrete counters 1 and 3. -/
theorem c9_rates_spec_witness :
    ((0 : ℤ) ≤ 1) ∧ ((1 : ℤ) ≤ 3) ∧ calcRate (.int 1) (.int 3) ≤ 100 :=
  ⟨by decide, by decide, c9_rates_spec.2.2.1 1 3 (by decide) (by decide)⟩

/-! ## C1: the ingestion run -/

/-- C1 counterexample.  A run over one pillar whose refresh raises writes
an audit record with `status = "partial"` — not `"failed"` — even though
`successCount = 0`: the source writes
`"success" if fail_count == 0 else "partial"` and has no `"failed"`
status. -/
theorem c1_counterexample :
    (updateAllPillarsNews 5 [⟨"1", "A", [], [], Option.none⟩]
        (fun _ => .raises)).2 =
      [⟨"daily-news-update", "partial", 1, 0, 1⟩]
    ∧ ("partial" : String) ≠ "failed" := by decide

/-- C1 (amended).  For every run over a non-empty pillar list, every
pillar is processed regardless of other pillars' failures, exactly one
audit record is written, its results carry the total, success and failure
counts (success = pillars whose refresh returned a non-empty item list;
the two counts partition the total), and its status is `"success"` when
`failedCount = 0` and `"partial"` otherwise (never `"failed"`); a
successful pillar gets the new `lastUpdated` timestamp and replaced items,
a failed one keeps its row unchanged.  In the spec's 3-pillar scenario
with pillar #2 raising, the record is `partial` with counts 2/1 and only
pillars #1 and #3 carry the new timestamp. -/
theorem c1_ingestion_run_spec (now : Nat) (pillars : List Pillar)
    (refresh : String → RefreshOutcome) (h : pillars ≠ []) :
    (updateAllPillarsNews now pillars refresh).2 =
      [{ jobName := "daily-news-update"
         status := if (pillars.filter fun p =>
             !(processPillar now p (refresh (pillarCategory p.name))).2).length = 0
           then "success" else "partial"
         totalPillars := pillars.length
         successCount := (pillars.filter fun p =>
           (processPillar now p (refresh (pillarCategory p.name))).2).length
         failedCount := (pillars.filter fun p =>
           !(processPillar now p (refresh (pillarCategory p.name))).2).length }]
    ∧ (updateAllPillarsNews now pillars refresh).1 =
        pillars.map (fun p => (processPillar now p (refresh (pillarCategory p.name))).1)
    ∧ (updateAllPillarsNews now pillars refresh).2.length = 1
    ∧ (pillars.filter fun p =>
          (processPillar now p (refresh (pillarCategory p.name))).2).length
        + (pillars.filter fun p =>
          !(processPillar now p (refresh (pillarCategory p.name))).2).length
        = pillars.length
    ∧ updateAllPillarsNews 5
        [⟨"1", "A", [], [], Option.none⟩, ⟨"2", "B", [], [], Option.none⟩,
         ⟨"3", "C", [], [], Option.none⟩]
        (fun cat => if cat = "b" then .raises else .items ["news"]) =
      ([⟨"1", "A", [], ["news"], some 5⟩, ⟨"2", "B", [], [], Option.none⟩,
        ⟨"3", "C", [], ["news"], some 5⟩],
       [⟨"daily-news-update", "partial", 3, 2, 1⟩]) := by
  have hne : pillars.isEmpty = false := by simpa [List.isEmpty_iff] using h
  refine ⟨?_, ?_, ?_, (List.length_eq_length_filter_add _).symm, by decide⟩
  · simp [updateAllPillarsNews, hne, List.filter_map, Function.comp_def]
  · simp [updateAllPillarsNews, hne, List.map_map, Function.comp_def]
  · simp [updateAllPillarsNews, hne]

/-- Witness for C1: the audit-record law applied to a concrete 3-pillar
run with a failing middle pillar. -/
theorem c1_ingestion_run_spec_witness :
    (([⟨"1", "A", [], [], Option.none⟩, ⟨"2", "B", [], [], Option.none⟩,
       ⟨"3", "C", [], [], Option.none⟩] : List Pillar) ≠ [])
    ∧ (updateAllPillarsNews 5
        [⟨"1", "A", [], [], Option.none⟩, ⟨"2", "B", [], [], Option.none⟩,
         ⟨"3", "C", [], [], Option.none⟩]
        (fun cat => if cat = "b" then .raises else .items ["news"])).2.length = 1 :=
  ⟨by decide,
   (c1_ingestion_run_spec 5
      [⟨"1", "A", [], [], Option.none⟩, ⟨"2", "B", [], [], Option.none⟩,
       ⟨"3", "C", [], [], Option.none⟩]
      (fun cat => if cat = "b" then .raises else .items ["news"])
      (by decide)).2.2.1⟩
